import Mathlib

/-!
Shallow embedding of the Session Client of the rental-property frontend:
the axios instance configured in the API service module (request
interceptor, response interceptor with 401 token refresh, login, logout)
and the localStorage-backed Credential Store it reads and writes.
-/

namespace SessionClient

/-- The three localStorage keys the API service uses. -/
inductive Key where
  | access_token
  | refresh_token
  | user
deriving Repr, DecidableEq

/-- The Credential Store: the slice of localStorage holding the session.
Each field is `none` when the key is absent. -/
structure Store where
  access_token : Option String
  refresh_token : Option String
  user : Option String
deriving Repr, DecidableEq

/-- localStorage.getItem. -/
def getItem (s : Store) : Key → Option String
  | Key.access_token => s.access_token
  | Key.refresh_token => s.refresh_token
  | Key.user => s.user

/-- localStorage.setItem. -/
def setItem (s : Store) : Key → String → Store
  | Key.access_token, v => { s with access_token := some v }
  | Key.refresh_token, v => { s with refresh_token := some v }
  | Key.user, v => { s with user := some v }

/-- localStorage.removeItem. -/
def removeItem (s : Store) : Key → Store
  | Key.access_token => { s with access_token := none }
  | Key.refresh_token => { s with refresh_token := none }
  | Key.user => { s with user := none }

/-- A storage area with no keys set. -/
def emptyStore : Store := ⟨none, none, none⟩

/-- JavaScript truthiness of a `localStorage.getItem` result: null and
the empty string are falsy. -/
def truthy : Option String → Bool
  | none => false
  | some s => s != ""

/-- An axios request config: url, body, the Authorization header, and
the `_retry` flag the response interceptor sets on the config before
retrying (absent, i.e. false, on a fresh request). -/
structure Config where
  url : String
  body : String
  authorization : Option String
  _retry : Bool
deriving Repr, DecidableEq

/-- The data carried by a successful response, as the callers destructure
it: `access` and `refresh` for the auth endpoints, `body` for the rest. -/
structure RespData where
  access : String
  refresh : String
  body : String
deriving Repr, DecidableEq

/-- Result of putting a request on the wire: a success with data, or an
error with `some status` (an HTTP error response) or `none` (network
failure, no response). -/
inductive SendResult where
  | ok (data : RespData)
  | err (status : Option Nat)
deriving Repr, DecidableEq

/-- An axios error as seen by the response interceptor: the config of the
request that failed and the response status, `none` when there was no
response. -/
structure AxiosError where
  config : Config
  status : Option Nat
deriving Repr, DecidableEq

/-- The environment: the behaviour of the backend. `send` answers a
request put through the api instance; `refresh` answers the direct
`axios.post` to the refresh endpoint with the given refresh token,
returning the new access token on success and `none` when the refresh
call is rejected or fails on the network. -/
structure Env where
  send : Config → SendResult
  refresh : String → Option String

/-- What the original caller observes: a resolved response, a rejected
axios error, the rejected refresh error, or fuel exhaustion (never
reached with enough fuel, the `_retry` flag bounds the recursion). -/
inductive Outcome where
  | success (data : RespData)
  | rejected (error : AxiosError)
  | refreshRejected
  | fuelExhausted
deriving Repr, DecidableEq

/-- Observable side effects of one handling episode: how many refresh
calls were issued, the list of configs re-sent through the api instance,
and whether `window.location.href` was set to the login page. -/
structure Trace where
  refreshCalls : Nat
  retries : List Config
  redirectedToLogin : Bool
deriving Repr, DecidableEq

/-- The empty trace. -/
def emptyTrace : Trace := ⟨0, [], false⟩

/-- Sequential composition of traces. -/
def Trace.append (a b : Trace) : Trace :=
  ⟨a.refreshCalls + b.refreshCalls, a.retries ++ b.retries,
   a.redirectedToLogin || b.redirectedToLogin⟩

/-- The request interceptor: reads `access_token` from localStorage and,
when it is truthy, sets the Authorization header to `Bearer <token>`;
otherwise the config passes through unchanged. -/
def requestInterceptor (store : Store) (config : Config) : Config :=
  match getItem store Key.access_token with
  | some token =>
      if token = "" then config
      else { config with authorization := some ("Bearer " ++ token) }
  | none => config

/-- The error branch of the response interceptor. On a 401 whose config
has `_retry` unset it sets `_retry`, reads the refresh token, and when
that is truthy posts to the refresh endpoint: on success it stores the
new access token, rewrites the Authorization header, and re-issues the
original request through the api instance (request interceptor, wire,
and this same handler again on error — hence the fuel); on refresh
failure it removes all three keys, redirects to the login page, and
rejects with the refresh error. Every other path rejects with the
incoming error. -/
def handleResponseError (env : Env) (store : Store) (error : AxiosError) :
    Nat → Outcome × Store × Trace
  | 0 => (Outcome.fuelExhausted, store, emptyTrace)
  | fuel + 1 =>
    if error.status = some 401 ∧ error.config._retry = false then
      let originalRequest := { error.config with _retry := true }
      match getItem store Key.refresh_token with
      | some refreshToken =>
        if refreshToken = "" then
          (Outcome.rejected { error with config := originalRequest }, store, emptyTrace)
        else
          match env.refresh refreshToken with
          | some access =>
            let store1 := setItem store Key.access_token access
            let retried := { originalRequest with
                             authorization := some ("Bearer " ++ access) }
            let sent := requestInterceptor store1 retried
            match env.send sent with
            | SendResult.ok d =>
                (Outcome.success d, store1, ⟨1, [sent], false⟩)
            | SendResult.err st =>
                let r := handleResponseError env store1 ⟨sent, st⟩ fuel
                (r.1, r.2.1, Trace.append ⟨1, [sent], false⟩ r.2.2)
          | none =>
            let cleared :=
              removeItem (removeItem (removeItem store Key.access_token)
                Key.refresh_token) Key.user
            (Outcome.refreshRejected, cleared, ⟨1, [], true⟩)
      | none =>
        (Outcome.rejected { error with config := originalRequest }, store, emptyTrace)
    else
      (Outcome.rejected error, store, emptyTrace)

/-- One request through the api instance: request interceptor, wire, and
the response interceptor error branch on failure. -/
def sendViaApi (env : Env) (store : Store) (config : Config) (fuel : Nat) :
    Outcome × Store × Trace :=
  let sent := requestInterceptor store config
  match env.send sent with
  | SendResult.ok d => (Outcome.success d, store, emptyTrace)
  | SendResult.err st => handleResponseError env store ⟨sent, st⟩ fuel

/-- The config of the login post (body stands for the credentials). -/
def loginConfig : Config := ⟨"/auth/login/", "credentials", none, false⟩

/-- The config of the current-user fetch issued by login. -/
def userConfig : Config := ⟨"/auth/user/", "", none, false⟩

/-- The login function: posts the credentials through the api instance,
stores the returned access and refresh tokens, fetches the current user
through the api instance, and stores its serialized data under `user`.
A failure of either call rejects and performs no further writes. -/
def login (env : Env) (store : Store) (fuel : Nat) : Outcome × Store × Trace :=
  let r1 := sendViaApi env store loginConfig fuel
  match r1.1 with
  | Outcome.success d =>
    let store2 := setItem (setItem r1.2.1 Key.access_token d.access)
      Key.refresh_token d.refresh
    let r2 := sendViaApi env store2 userConfig fuel
    match r2.1 with
    | Outcome.success u =>
        (Outcome.success u, setItem r2.2.1 Key.user u.body,
         Trace.append r1.2.2 r2.2.2)
    | _ => (r2.1, r2.2.1, Trace.append r1.2.2 r2.2.2)
  | _ => r1

/-- The logout function: removes the three session keys. -/
def logout (store : Store) : Store :=
  removeItem (removeItem (removeItem store Key.access_token)
    Key.refresh_token) Key.user

/-- The access-token write performed on refresh success. -/
def updateAccessToken (store : Store) (newAccess : String) : Store :=
  setItem store Key.access_token newAccess

/-- The session save performed by a fully successful login: the two
token writes followed by the user write. -/
def save (s : Store) (access refresh user : String) : Store :=
  setItem (setItem (setItem s Key.access_token access)
    Key.refresh_token refresh) Key.user user

/-- Modelled from the spec: the Credential Store load() accessor. The
source has no single load function; this is the triple of
localStorage.getItem reads the code performs (access_token in checkAuth
and the request interceptor, refresh_token in the response interceptor,
user in checkAuth). It is a total function: it never throws, and on
empty storage every component is `none`. -/
def load (s : Store) : Option String × Option String × Option String :=
  (getItem s Key.access_token, getItem s Key.refresh_token, getItem s Key.user)

/-- The session-pairing invariant: access and refresh token both present
or both absent. -/
def paired (s : Store) : Prop :=
  s.access_token.isSome = s.refresh_token.isSome

instance (s : Store) : Decidable (paired s) := by
  unfold paired; infer_instance

/-! Helper lemmas shared by the claim theorems. -/

/-- A handler invocation on an error whose config already carries the
retried flag leaves the store untouched and produces no side effects,
at any fuel. -/
lemma handleResponseError_retried (env : Env) (s : Store) (e : AxiosError)
    (fuel : Nat) (h : e.config._retry = true) :
    (handleResponseError env s e fuel).2 = (s, emptyTrace) := by
  cases fuel with
  | zero => rfl
  | succ n => simp [handleResponseError, h]

/-- The request interceptor never touches the retried flag. -/
lemma requestInterceptor_retry_flag (s : Store) (c : Config) :
    (requestInterceptor s c)._retry = c._retry := by
  unfold requestInterceptor
  cases getItem s Key.access_token with
  | none => rfl
  | some t =>
    by_cases h : t = "" <;> simp [h]

/-- A handler invocation on an error whose status is not 401 rejects it
unchanged with no side effects, given fuel to enter the body. -/
lemma handleResponseError_non401 (env : Env) (s : Store) (e : AxiosError)
    (fuel : Nat) (h : e.status ≠ some 401) :
    handleResponseError env s e (fuel + 1) =
      (Outcome.rejected e, s, emptyTrace) := by
  simp [handleResponseError, h]

/-- Re-sending a config whose Authorization header already carries the
token just stored leaves the config unchanged. -/
lemma requestInterceptor_fresh_bearer (s : Store) (u b : String) (r : Bool)
    (a : String) :
    requestInterceptor (setItem s Key.access_token a)
      ⟨u, b, some ("Bearer " ++ a), r⟩ = ⟨u, b, some ("Bearer " ++ a), r⟩ := by
  by_cases ha : a = "" <;>
    simp [requestInterceptor, getItem, setItem, ha]

/-- A backend stub used by the closed witness statements: every request
on the wire fails with 401 and the refresh endpoint rejects. -/
def stubEnv : Env := ⟨fun _ => SendResult.err (some 401), fun _ => none⟩

/-! Claim theorems. -/

/-- C4: for every outbound request, if the Credential Store holds an
access token the request interceptor attaches exactly that token as
the header Authorization: Bearer token, and if no token is stored the
request passes through with the descriptor unchanged. -/
theorem c4_request_interceptor_bearer (s : Store) (c : Config) :
    (∀ t, s.access_token = some t → t ≠ "" →
      requestInterceptor s c = { c with authorization := some ("Bearer " ++ t) }) ∧
    (truthy s.access_token = false → requestInterceptor s c = c) := by
  constructor
  · intro t ht hne
    simp [requestInterceptor, getItem, ht, hne]
  · intro h
    unfold requestInterceptor getItem
    cases hs : s.access_token with
    | none => rfl
    | some t =>
      rw [hs] at h
      simp only [truthy, bne_eq_false_iff_eq] at h
      simp [h]

/-- Witness for C4 at a concrete store and request. -/
theorem c4_witness :
    requestInterceptor ⟨some "T1", none, none⟩ ⟨"/units/", "", none, false⟩ =
      ⟨"/units/", "", some "Bearer T1", false⟩ :=
  (c4_request_interceptor_bearer ⟨some "T1", none, none⟩
    ⟨"/units/", "", none, false⟩).1 "T1" rfl (by decide)

/-- C8: the access-token update performed on refresh success modifies
only the stored access token; the refresh token and the cached user
profile are unchanged for every prior store state. -/
theorem c8_updateAccessToken_frame (s : Store) (a : String) :
    (updateAccessToken s a).refresh_token = s.refresh_token ∧
    (updateAccessToken s a).user = s.user ∧
    (updateAccessToken s a).access_token = some a := by
  simp [updateAccessToken, setItem]

/-- C7: saving a session triple and loading it back returns exactly the
triple written, and load on empty storage returns the empty session
rather than failing. -/
theorem c7_save_load_roundtrip (s : Store) (a r u : String) :
    load (save s a r u) = (some a, some r, some u) ∧
    load emptyStore = (none, none, none) := by
  exact ⟨by simp [load, save, setItem, getItem], rfl⟩

/-- C2: an auth failure on a request already marked as retried is
rejected to the caller unchanged; no refresh call is issued, the store
is untouched, and no redirect happens, so a second retry is
impossible. -/
theorem c2_no_second_refresh (env : Env) (s : Store) (e : AxiosError)
    (fuel : Nat) (_hst : e.status = some 401) (hr : e.config._retry = true) :
    handleResponseError env s e (fuel + 1) = (Outcome.rejected e, s, emptyTrace) := by
  simp [handleResponseError, hr]

/-- Witness for C2 at a concrete retried request. -/
theorem c2_witness :
    handleResponseError stubEnv ⟨some "A1", some "R1", none⟩
      ⟨⟨"/units/", "", none, true⟩, some 401⟩ 1 =
      (Outcome.rejected ⟨⟨"/units/", "", none, true⟩, some 401⟩,
       ⟨some "A1", some "R1", none⟩, emptyTrace) :=
  c2_no_second_refresh stubEnv ⟨some "A1", some "R1", none⟩
    ⟨⟨"/units/", "", none, true⟩, some 401⟩ 0 rfl rfl

/-- C5: a failure whose status is not 401 (other 4xx, 5xx, or a network
error with no response) is rejected with the original error unchanged;
no refresh call is issued and the store is not modified. -/
theorem c5_non_auth_passthrough (env : Env) (s : Store) (e : AxiosError)
    (fuel : Nat) (h : e.status ≠ some 401) :
    handleResponseError env s e (fuel + 1) = (Outcome.rejected e, s, emptyTrace) :=
  handleResponseError_non401 env s e fuel h

/-- Witness for C5 at a concrete 500 response. -/
theorem c5_witness :
    handleResponseError stubEnv emptyStore
      ⟨⟨"/units/", "", none, false⟩, some 500⟩ 1 =
      (Outcome.rejected ⟨⟨"/units/", "", none, false⟩, some 500⟩,
       emptyStore, emptyTrace) :=
  c5_non_auth_passthrough stubEnv emptyStore
    ⟨⟨"/units/", "", none, false⟩, some 500⟩ 0 (by decide)

/-- C10: a first-time 401 with no refresh token stored is rejected with
the original error (whose config now carries the retried flag, since
the code sets the flag before checking the token); no refresh call is
issued, the store keeps its remaining contents, and no redirect to the
login page happens. -/
theorem c10_no_refresh_token (env : Env) (s : Store) (c : Config)
    (fuel : Nat) (hr : c._retry = false) (ht : truthy s.refresh_token = false) :
    handleResponseError env s ⟨c, some 401⟩ (fuel + 1) =
      (Outcome.rejected ⟨{ c with _retry := true }, some 401⟩, s, emptyTrace) := by
  unfold handleResponseError
  rw [if_pos ⟨rfl, hr⟩]
  cases hs : s.refresh_token with
  | none => simp [getItem, hs]
  | some t =>
    rw [hs] at ht
    simp only [truthy, bne_eq_false_iff_eq] at ht
    simp [getItem, hs, ht]

/-- Witness for C10: stored access token and profile but no refresh
token. -/
theorem c10_witness :
    handleResponseError stubEnv ⟨some "A1", none, some "U"⟩
      ⟨⟨"/units/", "", none, false⟩, some 401⟩ 1 =
      (Outcome.rejected ⟨⟨"/units/", "", none, true⟩, some 401⟩,
       ⟨some "A1", none, some "U"⟩, emptyTrace) :=
  c10_no_refresh_token stubEnv ⟨some "A1", none, some "U"⟩
    ⟨"/units/", "", none, false⟩ 0 rfl rfl

/-- C1: a first-time 401 with a refresh token stored leads to exactly
one refresh call and exactly one retry of the original request; the
retried request carries Bearer with the newly issued access token and
the stored access token is replaced by it, whatever the retry then
returns. -/
theorem c1_single_refresh_and_retry (env : Env) (s : Store) (c : Config)
    (rt a2 : String) (fuel : Nat)
    (hr : c._retry = false) (hs : s.refresh_token = some rt) (hne : rt ≠ "")
    (hrefresh : env.refresh rt = some a2) :
    (handleResponseError env s ⟨c, some 401⟩ (fuel + 1)).2 =
      ({ s with access_token := some a2 },
       ⟨1, [{ c with _retry := true, authorization := some ("Bearer " ++ a2) }],
        false⟩) := by
  unfold handleResponseError
  rw [if_pos ⟨rfl, hr⟩]
  simp only [getItem]
  rw [hs]
  simp only [hne, if_false, hrefresh]
  rw [requestInterceptor_fresh_bearer]
  cases hsend : env.send { c with _retry := true, authorization := some ("Bearer " ++ a2) } with
  | ok d => simp [setItem, hs]
  | err st =>
    dsimp only
    rw [handleResponseError_retried env (setItem s Key.access_token a2)
      ⟨⟨c.url, c.body, some ("Bearer " ++ a2), true⟩, st⟩ fuel rfl]
    simp [setItem, Trace.append, emptyTrace, hs]

/-- Witness for C1: tokens A1 and R1 stored, refresh yields A2, retry
fails with 401 again; still exactly one refresh call and one retry with
Bearer A2, and the stored access token becomes A2. -/
theorem c1_witness :
    (handleResponseError (⟨fun _ => SendResult.err (some 401),
        fun _ => some "A2"⟩ : Env) ⟨some "A1", some "R1", none⟩
      ⟨⟨"/units/", "", some "Bearer A1", false⟩, some 401⟩ 2).2 =
      (⟨some "A2", some "R1", none⟩,
       ⟨1, [⟨"/units/", "", some "Bearer A2", true⟩], false⟩) :=
  c1_single_refresh_and_retry _ ⟨some "A1", some "R1", none⟩
    ⟨"/units/", "", some "Bearer A1", false⟩ "R1" "A2" 1 rfl rfl (by decide) rfl

/-- C3: when the refresh call itself fails, the store ends fully
cleared, the caller observes the rejected refresh error, and control is
redirected to the login page. -/
theorem c3_refresh_failure_clears (env : Env) (s : Store) (c : Config)
    (rt : String) (fuel : Nat)
    (hr : c._retry = false) (hs : s.refresh_token = some rt) (hne : rt ≠ "")
    (hrefresh : env.refresh rt = none) :
    handleResponseError env s ⟨c, some 401⟩ (fuel + 1) =
      (Outcome.refreshRejected, emptyStore, ⟨1, [], true⟩) := by
  unfold handleResponseError
  rw [if_pos ⟨rfl, hr⟩]
  simp only [getItem]
  rw [hs]
  simp [hne, hrefresh, removeItem, emptyStore]

/-- Witness for C3 at a concrete store whose refresh token the backend
rejects. -/
theorem c3_witness :
    handleResponseError stubEnv ⟨some "A1", some "R1", some "U"⟩
      ⟨⟨"/units/", "", none, false⟩, some 401⟩ 1 =
      (Outcome.refreshRejected, emptyStore, ⟨1, [], true⟩) :=
  c3_refresh_failure_clears stubEnv ⟨some "A1", some "R1", some "U"⟩
    ⟨"/units/", "", none, false⟩ "R1" 0 rfl rfl (by decide) rfl

/-- Writing both tokens yields a paired store regardless of the prior
state. -/
lemma paired_both_tokens (s : Store) (a b : String) :
    paired (setItem (setItem s Key.access_token a) Key.refresh_token b) := by
  simp [paired, setItem]

/-- Writing the user key preserves pairing. -/
lemma paired_setItem_user (s : Store) (v : String) (h : paired s) :
    paired (setItem s Key.user v) := by
  simpa [paired, setItem] using h

/-- The response-error handler preserves the session-pairing
invariant. -/
lemma handleResponseError_paired (env : Env) (s : Store) (e : AxiosError)
    (fuel : Nat) (h : paired s) :
    paired (handleResponseError env s e fuel).2.1 := by
  cases fuel with
  | zero => exact h
  | succ n =>
    unfold handleResponseError
    by_cases hc : e.status = some 401 ∧ e.config._retry = false
    · rw [if_pos hc]
      cases hrt : s.refresh_token with
      | none => simpa [getItem, hrt] using h
      | some rt =>
        by_cases hne : rt = ""
        · simpa [getItem, hrt, hne] using h
        · cases hrefresh : env.refresh rt with
          | none => simp [getItem, hrt, hne, hrefresh, paired, removeItem]
          | some a =>
            simp only [getItem, hrt, hne, if_false, hrefresh]
            cases hsend : env.send (requestInterceptor
                (setItem s Key.access_token a)
                { e.config with _retry := true, authorization := some ("Bearer " ++ a) }) with
            | ok d => simp [paired, setItem, hrt]
            | err st =>
              dsimp only
              rw [handleResponseError_retried]
              · simp [paired, setItem, hrt]
              · rw [requestInterceptor_retry_flag]
    · rw [if_neg hc]
      exact h

/-- One request through the api instance preserves the session-pairing
invariant. -/
lemma sendViaApi_paired (env : Env) (s : Store) (c : Config) (fuel : Nat)
    (h : paired s) : paired (sendViaApi env s c fuel).2.1 := by
  simp only [sendViaApi]
  cases env.send (requestInterceptor s c) with
  | ok d => exact h
  | err st => exact handleResponseError_paired env s _ fuel h

/-- The login function preserves the session-pairing invariant. -/
lemma login_paired (env : Env) (s : Store) (fuel : Nat) (h : paired s) :
    paired (login env s fuel).2.1 := by
  simp only [login]
  split
  · split
    · exact paired_setItem_user _ _
        (sendViaApi_paired env _ userConfig fuel (paired_both_tokens _ _ _))
    · exact sendViaApi_paired env _ userConfig fuel (paired_both_tokens _ _ _)
  · exact sendViaApi_paired env s loginConfig fuel h

/-- C6: the session-pairing invariant (access and refresh token both
present or both absent) is preserved by every operation on the
Credential Store: login, logout, and the response-error handler, which
covers both refresh success and refresh failure. -/
theorem c6_pairing_invariant (env : Env) (s : Store) (e : AxiosError)
    (fuel : Nat) (h : paired s) :
    paired (login env s fuel).2.1 ∧ paired (logout s) ∧
    paired (handleResponseError env s e fuel).2.1 :=
  ⟨login_paired env s fuel h, by simp [paired, logout, removeItem],
   handleResponseError_paired env s e fuel h⟩

/-- Witness for C6 at a concrete paired store and backend. -/
theorem c6_witness :
    paired (login stubEnv ⟨some "A1", some "R1", none⟩ 2).2.1 ∧
    paired (logout ⟨some "A1", some "R1", none⟩) ∧
    paired (handleResponseError stubEnv ⟨some "A1", some "R1", none⟩
      ⟨⟨"/units/", "", none, false⟩, some 401⟩ 2).2.1 :=
  c6_pairing_invariant stubEnv ⟨some "A1", some "R1", none⟩
    ⟨⟨"/units/", "", none, false⟩, some 401⟩ 2 (by decide)

/-- A backend where the login post succeeds with tokens A2 and R2 but
the current-user fetch fails with a 500, exhibiting the partial write
login then leaves behind. -/
def loginPartialEnv : Env :=
  ⟨fun c => if c.url = "/auth/login/" then SendResult.ok ⟨"A2", "R2", ""⟩
            else SendResult.err (some 500),
   fun _ => none⟩

/-- C9 counterexample: when the login post succeeds but the profile
fetch fails, login rejects yet the store retains the freshly written
tokens with no corresponding profile, so the save is not atomic when a
later step fails. -/
theorem c9_counterexample :
    (login loginPartialEnv emptyStore 1).2.1 = ⟨some "A2", some "R2", none⟩ ∧
    (login loginPartialEnv emptyStore 1).1 =
      Outcome.rejected ⟨⟨"/auth/user/", "", some "Bearer A2", false⟩, some 500⟩ := by
  constructor <;> rfl

/-- C9 amended: the login save is not atomic; login writes the two
tokens first and the profile only after the subsequent profile fetch.
Given that the login post returns success: when the profile fetch also
returns success, all three fields are overwritten with the new session;
when the profile fetch instead fails with a non-auth status, login
rejects and the store retains the new tokens with the prior profile
field. -/
theorem c9_login_save (env : Env) (s : Store) (d : RespData) (fuel : Nat)
    (h1 : env.send (requestInterceptor s loginConfig) = SendResult.ok d) :
    (∀ u, env.send (requestInterceptor
        (setItem (setItem s Key.access_token d.access) Key.refresh_token d.refresh)
        userConfig) = SendResult.ok u →
      login env s (fuel + 1) =
        (Outcome.success u, save s d.access d.refresh u.body, emptyTrace)) ∧
    (∀ st, env.send (requestInterceptor
        (setItem (setItem s Key.access_token d.access) Key.refresh_token d.refresh)
        userConfig) = SendResult.err st → st ≠ some 401 →
      login env s (fuel + 1) =
        (Outcome.rejected ⟨requestInterceptor
            (setItem (setItem s Key.access_token d.access) Key.refresh_token d.refresh)
            userConfig, st⟩,
         setItem (setItem s Key.access_token d.access) Key.refresh_token d.refresh,
         emptyTrace)) := by
  constructor
  · intro u hu
    simp [login, sendViaApi, h1, hu, save, Trace.append, emptyTrace]
  · intro st hst2 hne
    have hh := handleResponseError_non401 env
      (setItem (setItem s Key.access_token d.access) Key.refresh_token d.refresh)
      ⟨requestInterceptor
        (setItem (setItem s Key.access_token d.access) Key.refresh_token d.refresh)
        userConfig, st⟩ fuel hne
    simp [login, sendViaApi, h1, hst2, Trace.append, emptyTrace, hh]

/-- Witness for the amended C9 at the concrete partial-failure
backend. -/
theorem c9_witness :
    login loginPartialEnv emptyStore 1 =
      (Outcome.rejected ⟨⟨"/auth/user/", "", some "Bearer A2", false⟩, some 500⟩,
       ⟨some "A2", some "R2", none⟩, emptyTrace) :=
  (c9_login_save loginPartialEnv emptyStore ⟨"A2", "R2", ""⟩ 0 rfl).2
    (some 500) rfl (by decide)

end SessionClient
